import Mathlib

/-!
Verification development for the hybrid SLM/LLM router and fallback
orchestrator (`router.py`, `orchestrator.py`).

Shallow embedding conventions:
* Python floats are modelled as exact rationals (`ℚ`); decimal literals such
  as `0.3` denote the exact rational 3/10.
* Python strings are Lean `String`s.  `str.split()`, `str.strip()`, `\w`
  word characters and `str.lower()` are modelled for ASCII text (the
  configuration keywords and all inputs of interest are ASCII).
* Backend providers (`models.py`) are external network collaborators; the
  spec describes them as stateless "prompt in, text or error out"
  capabilities, so they are modelled as functions
  `String → Except String String` (error message or response text).
* The terminology map between spec and source is: local = `slm`,
  general = `llm`, fast-cloud = `gemini`.
-/

namespace Slmllm

/-! ## ASCII string helpers (models of the Python string primitives used) -/

/-- ASCII whitespace, the characters Python's `str.split()` and `str.strip()`
treat as separators (ASCII fragment of Unicode whitespace). -/
def isPySpace (c : Char) : Bool :=
  c = ' ' || c = '\t' || c = '\n' || c = '\r' || c = '\x0b' || c = '\x0c'

/-- Word characters of the regex class `\w` (ASCII fragment). -/
def isWordChar (c : Char) : Bool :=
  c.isAlphanum || c = '_'

/-- Split a character list into the maximal runs of characters satisfying
`keep`; characters not satisfying `keep` separate runs and are dropped.
The accumulator holds the current run, reversed. -/
def splitRuns (keep : Char → Bool) : List Char → List Char → List (List Char)
  | [], acc => if acc.isEmpty then [] else [acc.reverse]
  | c :: cs, acc =>
    if keep c then splitRuns keep cs (c :: acc)
    else if acc.isEmpty then splitRuns keep cs []
    else acc.reverse :: splitRuns keep cs []

/-- Model of Python `len(text.split())`: number of maximal non-whitespace runs. -/
def wordCount (s : String) : Nat :=
  (splitRuns (fun c => !(isPySpace c)) s.data []).length

/-- Model of Python `text.count(c)` for a single character. -/
def charOccurrences (s : String) (c : Char) : Nat :=
  (s.data.filter (fun d => d = c)).length

/-- The maximal `\w`-runs of the text, used to model whole-word regex matches:
`\b(w1|w2|...)\b` with `re.IGNORECASE` matches exactly the maximal word runs
whose lowercasing equals one of the alternatives (all alternatives here are
plain alphabetic words). -/
def wordTokens (s : String) : List (List Char) :=
  splitRuns isWordChar s.data []

/-- Lowercase a character list (ASCII model of `str.lower()` /
`re.IGNORECASE`). -/
def lowerChars (t : List Char) : List Char :=
  t.map Char.toLower

/-- Count the whole-word, case-insensitive matches of any of the given
keywords in the text. -/
def keywordMatches (keywords : List (List Char)) (s : String) : Nat :=
  ((wordTokens s).filter (fun t => keywords.contains (lowerChars t))).length

/-- Model of Python `str.lower()` (ASCII). -/
def lowerStr (s : String) : String :=
  ⟨s.data.map Char.toLower⟩

/-- Does `pre` occur as a prefix of `l`? (Model of the start of a Python
`in` substring test.) -/
def leadsWith : List Char → List Char → Bool
  | [], _ => true
  | _ :: _, [] => false
  | a :: as, b :: bs => a = b && leadsWith as bs

/-- Does `n` occur as a contiguous sublist of `l`? (Model of Python's
substring test `n in l`.) -/
def hasSub : List Char → List Char → Bool
  | n, [] => leadsWith n []
  | n, c :: cs => leadsWith n (c :: cs) || hasSub n cs

/-- Substring test on strings: model of Python `needle in hay`. -/
def containsSub (needle hay : String) : Bool :=
  hasSub needle.data hay.data

/-- Model of Python `str.strip()`: drop ASCII whitespace from both ends. -/
def pyStrip (s : String) : String :=
  ⟨((s.data.dropWhile isPySpace).reverse.dropWhile isPySpace).reverse⟩

/-! ## Numeric formatting (model of Python fixed-point f-string formatting
with zero or two decimal places)

Python's fixed-point formatting rounds half to even.  We model it exactly on
the rational value (the tiny binary-float representation error of the source
is abstracted away by the exact-rational model). -/

/-- Round a rational to the nearest integer, halves to even. -/
def roundHalfEven (q : ℚ) : ℤ :=
  let f := ⌊q⌋
  let r := q - (f : ℚ)
  if r < 1/2 then f
  else if (1:ℚ)/2 < r then f + 1
  else if f % 2 = 0 then f else f + 1

/-- Model of f-string formatting of `q` with zero decimal places. -/
def fmt0f (q : ℚ) : String :=
  let n := roundHalfEven q
  (if n < 0 then "-" else "") ++ toString n.natAbs

/-- Model of f-string formatting of `q` with two decimal places. -/
def fmt2f (q : ℚ) : String :=
  let n := roundHalfEven (q * 100)
  let m := n.natAbs
  (if n < 0 then "-" else "") ++ toString (m / 100) ++ "." ++
    (if m % 100 < 10 then "0" else "") ++ toString (m % 100)

/-! ## Router (`router.py`) -/

/-- The routing configuration read from `config.yaml` (`ModelRouter.__init__`
and the fields `route` reads).  `gemini_available` models the membership
test of the key gemini among the configured models. -/
structure Config where
  complexity_threshold : ℚ
  max_slm_tokens : ℚ
  large_input_threshold : ℚ
  gemini_preferred_threshold : ℚ
  fallback_enabled : Bool
  cost_weight : ℚ
  latency_weight : ℚ
  quality_weight : ℚ
  slm_cost_per_token : ℚ
  llm_cost_per_token : ℚ
  gemini_available : Bool
  gemini_cost_per_token : ℚ
deriving DecidableEq

/-- The decision record produced by `ModelRouter.route` (`RoutingDecision`
dataclass). -/
structure RoutingDecision where
  model_type : String
  confidence : ℚ
  reason : String
  estimated_cost : ℚ
  estimated_latency : ℚ
deriving DecidableEq

/-- Keywords of the "complex verb" regex in `analyze_complexity`. -/
def complexKeywords : List (List Char) :=
  ["analyze".data, "explain".data, "compare".data, "evaluate".data,
   "synthesize".data, "create".data, "design".data, "develop".data]

/-- Keywords of the "technical noun" regex in `analyze_complexity`. -/
def technicalKeywords : List (List Char) :=
  ["algorithm".data, "architecture".data, "optimization".data,
   "implementation".data, "framework".data, "protocol".data]

/-- Model of `ModelRouter.analyze_complexity` (router.py lines 27-42). -/
def analyze_complexity (text : String) : ℚ :=
  let word_count := wordCount text
  let char_count := text.length
  let question_marks := charOccurrences text '?'
  let complex_patterns := keywordMatches complexKeywords text
  let technical_terms := keywordMatches technicalKeywords text
  min (min ((word_count : ℚ) / 100) 0.3
       + min ((char_count : ℚ) / 500) 0.2
       + min ((question_marks : ℚ) * 0.1) 0.2
       + min ((complex_patterns : ℚ) * 0.15) 0.2
       + min ((technical_terms : ℚ) * 0.1) 0.1) 1

/-- Model of `ModelRouter.estimate_tokens`. -/
def estimateTokens (text : String) : ℚ :=
  (wordCount text : ℚ) * 1.3

/-- Model of `ModelRouter.estimate_cost`.  `route` only calls it with
`"gemini"` when the gemini tier is configured, so the impossible
missing-key case (a Python `KeyError`) is given the junk value 0. -/
def estimateCost (cfg : Config) (text : String) (model_type : String) : ℚ :=
  let tokens := estimateTokens text
  let cost_per_token :=
    if model_type = "gemini" ∧ cfg.gemini_available = true then cfg.gemini_cost_per_token
    else if model_type = "llm" then cfg.llm_cost_per_token
    else if model_type = "slm" then cfg.slm_cost_per_token
    else 0
  tokens * cost_per_token

/-- Model of `ModelRouter.estimate_latency`. -/
def estimateLatency (text : String) (model_type : String) : ℚ :=
  let tokens := estimateTokens text
  if model_type = "gemini" then 1 + tokens / 200
  else if model_type = "llm" then 2 + tokens / 100
  else 0.5 + tokens / 500

/-- The weighted score of the general (`llm`) tier in the balanced branch of
`route` (router.py line 151). -/
def llmScore (cfg : Config) (text : String) : ℚ :=
  cfg.cost_weight * (1 - estimateCost cfg text "llm" * 100)
  + cfg.latency_weight * (1 - estimateLatency text "llm" / 10)
  + cfg.quality_weight * min (analyze_complexity text * 1.2) 1

/-- The weighted score of the local (`slm`) tier in the balanced branch of
`route` (router.py line 152). -/
def slmScore (cfg : Config) (text : String) : ℚ :=
  cfg.cost_weight * (1 - estimateCost cfg text "slm" * 100)
  + cfg.latency_weight * (1 - estimateLatency text "slm" / 10)
  + cfg.quality_weight * max 0.5 (1 - analyze_complexity text * 0.5)

/-- The (score, cost, latency) triple of the fast-cloud (`gemini`) tier in the
balanced branch of `route` (router.py lines 139-146): all zero unless gemini
is configured and the token estimate reaches `gemini_preferred_threshold`. -/
def geminiWeighted (cfg : Config) (text : String) : ℚ × ℚ × ℚ :=
  if cfg.gemini_available = true ∧ cfg.gemini_preferred_threshold ≤ estimateTokens text then
    let gemini_cost := estimateCost cfg text "gemini"
    let gemini_latency := estimateLatency text "gemini"
    let gemini_quality := min (analyze_complexity text * 1.3) 1
    (cfg.cost_weight * (1 - gemini_cost * 100)
      + cfg.latency_weight * (1 - gemini_latency / 10)
      + cfg.quality_weight * gemini_quality,
     gemini_cost, gemini_latency)
  else (0, 0, 0)

/-- Model of `ModelRouter.route` (router.py lines 70-178). -/
def route (cfg : Config) (text : String) (priority : String) : RoutingDecision :=
  let complexity := analyze_complexity text
  let word_count : ℚ := (wordCount text : ℚ)
  let estimated_tokens := estimateTokens text
  if cfg.large_input_threshold ≤ estimated_tokens ∧ cfg.gemini_available = true then
    ⟨"gemini", 0.95,
     "Very large input (" ++ fmt0f estimated_tokens
       ++ " tokens) - routing to Gemini for speed and reliability",
     estimateCost cfg text "gemini", estimateLatency text "gemini"⟩
  else if priority = "cost" ∧ complexity < 0.8 ∧ word_count < cfg.max_slm_tokens then
    ⟨"slm", 0.8, "Low complexity task, cost-optimized",
     estimateCost cfg text "slm", estimateLatency text "slm"⟩
  else if priority = "speed" ∧ cfg.gemini_preferred_threshold ≤ estimated_tokens
            ∧ cfg.gemini_available = true then
    ⟨"gemini", 0.9,
     "Large input (" ++ fmt0f estimated_tokens ++ " tokens) - Gemini preferred for speed",
     estimateCost cfg text "gemini", estimateLatency text "gemini"⟩
  else if priority = "speed" ∧ complexity < 0.7 then
    ⟨"slm", 0.75, "Simple task, speed-optimized",
     estimateCost cfg text "slm", estimateLatency text "slm"⟩
  else if cfg.complexity_threshold < complexity ∨ cfg.max_slm_tokens < word_count then
    if cfg.gemini_preferred_threshold ≤ estimated_tokens ∧ cfg.gemini_available = true then
      ⟨"gemini", 0.9,
       "High complexity (" ++ fmt2f complexity ++ ") and large input ("
         ++ fmt0f estimated_tokens ++ " tokens) - Gemini preferred",
       estimateCost cfg text "gemini", estimateLatency text "gemini"⟩
    else
      ⟨"llm", 0.9, "High complexity (" ++ fmt2f complexity ++ ") or long input",
       estimateCost cfg text "llm", estimateLatency text "llm"⟩
  else
    let gw := geminiWeighted cfg text
    if cfg.gemini_available = true ∧ 0 < gw.1
        ∧ max (llmScore cfg text) (slmScore cfg text) ≤ gw.1 then
      ⟨"gemini", 0.85,
       "Gemini preferred for reliability and speed (score: " ++ fmt2f gw.1 ++ ", "
         ++ fmt0f estimated_tokens ++ " tokens)",
       gw.2.1, gw.2.2⟩
    else if llmScore cfg text < slmScore cfg text ∧ complexity < 0.7 then
      ⟨"slm", 0.7, "Balanced decision: SLM preferred (score: " ++ fmt2f (slmScore cfg text) ++ ")",
       estimateCost cfg text "slm", estimateLatency text "slm"⟩
    else
      ⟨"llm", 0.85, "Balanced decision: LLM preferred (score: " ++ fmt2f (llmScore cfg text) ++ ")",
       estimateCost cfg text "llm", estimateLatency text "llm"⟩

/-! ## Orchestrator (`orchestrator.py`)

The three backend providers are modelled as stateless functions
`String → Except String String` (spec §2: each backend is a "given a prompt,
return text or fail" capability).  `process` and `distill_and_process`
additionally return the ordered list of tier names whose `generate`
capability was invoked, so that invocation-count properties can be stated. -/

/-- The backend capabilities available to the orchestrator.  The gemini
function is only consulted when `Config.gemini_available` is true (in the
source, the gemini fallback provider is constructed exactly when the key
gemini is among the configured models). -/
structure Providers where
  slm : String → Except String String
  llm : String → Except String String
  gemini : String → Except String String

/-- The dictionary returned by `HybridOrchestrator.process`.
`fallback_reason` is `none` when the Python dict has no such key. -/
structure Outcome where
  response : String
  model_used : String
  decision : RoutingDecision
  fallback_used : Bool
  fallback_reason : Option String
deriving DecidableEq

/-- The connectivity-failure test of `_try_generate_with_fallback`
(orchestrator.py line 117). -/
def isConnectivityError (e : String) : Bool :=
  let l := lowerStr e
  (containsSub "ollama" l && containsSub "connection" l) || containsSub "connection error" l

/-- Model of `HybridOrchestrator._try_generate_with_fallback`
(orchestrator.py lines 112-122).  Returns the result together with the list
of tiers whose `generate` was invoked.  `tier` is the log name of
`provider`; `modelName` is the display name passed by the caller. -/
def tryGenerateWithFallback (cfg : Config) (pv : Providers)
    (provider : String → Except String String) (tier : String)
    (prompt modelName : String) : Except String String × List String :=
  match provider prompt with
  | .ok r => (.ok r, [tier])
  | .error e =>
    if isConnectivityError e then
      if cfg.gemini_available then (pv.gemini prompt, [tier, "gemini"])
      else (.error (modelName ++ " failed (Ollama not available) and Gemini fallback not configured"),
            [tier])
    else (.error e, [tier])

/-- Model of `HybridOrchestrator._check_response_quality`
(orchestrator.py lines 175-186). -/
def indicatorCount (response : String) : Nat :=
  (["error", "cannot", "unable", "sorry", "i don\x27t know"].filter
    (fun ind => containsSub ind (lowerStr response))).length

/-- Model of `HybridOrchestrator._check_response_quality`: `true` means the
response passes the quality gate. -/
def checkResponseQuality (response prompt : String) : Bool :=
  if response.length < 10 then false
  else if (response.length : ℚ) < (prompt.length : ℚ) * 0.1 then false
  else decide (indicatorCount response < 2)

/-- Model of the `except` handler of `process` for the `slm` branch
(orchestrator.py lines 76-96): `e` is the stringified exception raised
inside the `try` block. -/
def slmExcept (cfg : Config) (pv : Providers) (use_llm_fallback : Bool)
    (prompt : String) (decision : RoutingDecision) (e : String)
    (log : List String) : Except String Outcome × List String :=
  if use_llm_fallback && cfg.fallback_enabled then
    if cfg.gemini_available then
      match pv.gemini prompt with
      | .ok r =>
        (.ok ⟨r, "gemini", decision, true, some ("SLM error: " ++ e ++ ", using Gemini")⟩,
         log ++ ["gemini"])
      | .error g =>
        (.error ("All models failed. SLM: " ++ e ++ ", LLM/Gemini: " ++ g), log ++ ["gemini"])
    else
      match tryGenerateWithFallback cfg pv pv.llm "llm" prompt "LLM" with
      | (.ok r, l2) =>
        (.ok ⟨r, "llm", decision, true, some ("SLM error: " ++ e)⟩, log ++ l2)
      | (.error e2, l2) =>
        (.error ("All models failed. SLM: " ++ e ++ ", LLM/Gemini: " ++ e2), log ++ l2)
  else (.error e, log)

/-- Model of `HybridOrchestrator.process` (orchestrator.py lines 22-110).
Besides the outcome (or the terminal error message), it returns the ordered
list of tiers whose `generate` capability was invoked. -/
def process (cfg : Config) (pv : Providers) (prompt priority : String)
    (use_llm_fallback : Bool) : Except String Outcome × List String :=
  let decision := route cfg prompt priority
  if decision.model_type = "gemini" then
    if cfg.gemini_available then
      match pv.gemini prompt with
      | .ok r => (.ok ⟨r, "gemini", decision, false, none⟩, ["gemini"])
      | .error e => (.error e, ["gemini"])
    else (.error "Gemini routing requested but Gemini not configured", [])
  else if decision.model_type = "llm" then
    match tryGenerateWithFallback cfg pv pv.llm "llm" prompt "LLM" with
    | (.ok r, log) => (.ok ⟨r, "llm", decision, false, none⟩, log)
    | (.error e, log) =>
      if cfg.gemini_available then
        match pv.gemini prompt with
        | .ok r =>
          (.ok ⟨r, "gemini", decision, true, some ("LLM error: " ++ e ++ ", using Gemini")⟩,
           log ++ ["gemini"])
        | .error g =>
          (.error ("Both LLM and Gemini failed. LLM: " ++ e ++ ", Gemini: " ++ g),
           log ++ ["gemini"])
      else (.error e, log)
  else
    match tryGenerateWithFallback cfg pv pv.slm "slm" prompt "SLM" with
    | (.error e, log) => slmExcept cfg pv use_llm_fallback prompt decision e log
    | (.ok r, log) =>
      if use_llm_fallback && cfg.fallback_enabled && !(checkResponseQuality r prompt) then
        if cfg.gemini_available then
          match pv.gemini prompt with
          | .ok r2 =>
            (.ok ⟨r2, "gemini", decision, true,
                  some "SLM response quality insufficient, using Gemini"⟩,
             log ++ ["gemini"])
          | .error g => slmExcept cfg pv use_llm_fallback prompt decision g (log ++ ["gemini"])
        else
          match tryGenerateWithFallback cfg pv pv.llm "llm" prompt "LLM" with
          | (.ok r2, l2) =>
            (.ok ⟨r2, "llm", decision, true, some "SLM response quality insufficient"⟩,
             log ++ l2)
          | (.error e2, l2) => slmExcept cfg pv use_llm_fallback prompt decision e2 (log ++ l2)
      else (.ok ⟨r, "slm", decision, false, none⟩, log)

/-- The dictionary returned by `HybridOrchestrator.distill_and_process`. -/
structure DistillOutcome where
  response : String
  model_used : String
  refined_prompt : String
  original_prompt : String
  distillation_used : Bool
  distillation_error : Option String
deriving DecidableEq

/-- The fixed meta-prompt of `distill_and_process`
(orchestrator.py lines 125-135). -/
def distillationPrompt (prompt : String) : String :=
  "You are a prompt optimizer. Your task is to refine and narrow down the following user prompt to make it more focused, clear, and effective for a large language model.\n\nOriginal prompt: "
  ++ prompt ++
  "\n\nProvide a refined, concise version of this prompt that:\n1. Maintains the core intent\n2. Removes unnecessary details\n3. Clarifies any ambiguities\n4. Focuses on the key question or request\n\nReturn only the refined prompt, nothing else."

/-- Model of the `except` handler of `distill_and_process`
(orchestrator.py lines 159-173). -/
def distillExcept (cfg : Config) (pv : Providers) (prompt e : String)
    (log : List String) : Except String DistillOutcome × List String :=
  if cfg.gemini_available then
    match pv.gemini prompt with
    | .ok r =>
      (.ok ⟨r, "gemini", prompt, prompt, false, some e⟩, log ++ ["gemini"])
    | .error g =>
      (.error ("Distillation and fallback failed. Distillation: " ++ e ++ ", Gemini: " ++ g),
       log ++ ["gemini"])
  else (.error ("Distillation failed: " ++ e), log)

/-- Model of `HybridOrchestrator.distill_and_process`
(orchestrator.py lines 124-173). -/
def distillAndProcess (cfg : Config) (pv : Providers) (prompt : String) :
    Except String DistillOutcome × List String :=
  match tryGenerateWithFallback cfg pv pv.slm "slm" (distillationPrompt prompt) "SLM" with
  | (.error e, log) => distillExcept cfg pv prompt e log
  | (.ok r0, log) =>
    let refined_prompt := if r0 = "" ∨ (pyStrip r0).length < 10 then prompt else r0
    let refined_prompt := pyStrip refined_prompt
    if cfg.gemini_available then
      match pv.gemini refined_prompt with
      | .ok resp => (.ok ⟨resp, "gemini", refined_prompt, prompt, true, none⟩, log ++ ["gemini"])
      | .error e => distillExcept cfg pv prompt e (log ++ ["gemini"])
    else
      match tryGenerateWithFallback cfg pv pv.llm "llm" refined_prompt "LLM" with
      | (.ok resp, l2) => (.ok ⟨resp, "llm", refined_prompt, prompt, true, none⟩, log ++ l2)
      | (.error e, l2) => distillExcept cfg pv prompt e (log ++ l2)

/-! ## Specification-side definition (for the refinement comparison of the
weighted-score branch) -/

/-- Modelled from the spec's words (spec §4.3 rule 5), for comparison with
the source's weighted branch: "Select the tier with the highest score; ties
broken in order fast-cloud > local > general", with the fast-cloud tier
treated as unavailable when not configured or below
`gemini_preferred_threshold`. -/
def specWeightedChoice (cfg : Config) (text : String) : String :=
  let gS := (geminiWeighted cfg text).1
  let lS := llmScore cfg text
  let sS := slmScore cfg text
  if (cfg.gemini_available = true ∧ cfg.gemini_preferred_threshold ≤ estimateTokens text)
      ∧ lS ≤ gS ∧ sS ≤ gS then "gemini"
  else if lS ≤ sS then "slm"
  else "llm"

/-! ## General-purpose lemmas -/

/-- The character data of an appended string is the appended character data. -/
theorem strData_append (a b : String) : (a ++ b).data = a.data ++ b.data := rfl

/-- The length of an appended string is the sum of the lengths. -/
theorem strLength_append (a b : String) : (a ++ b).length = a.length + b.length := by
  show (a ++ b).data.length = a.data.length + b.data.length
  rw [strData_append, List.length_append]

/-- Appending to a nonempty string yields a nonempty string. -/
theorem append_ne_empty (a b : String) (h : a.length ≠ 0) : a ++ b ≠ "" := by
  intro hc
  have h2 : (a ++ b).data.length = 0 := by rw [hc]; rfl
  rw [strData_append, List.length_append] at h2
  have h3 : a.data.length = 0 := by omega
  exact h h3

theorem leadsWith_append_self (n suf : List Char) : leadsWith n (n ++ suf) = true := by
  induction n with
  | nil => rfl
  | cons a as ih =>
    show (decide (a = a) && leadsWith as (as ++ suf)) = true
    simp [ih]

theorem hasSub_append_self (n pre suf : List Char) : hasSub n (pre ++ (n ++ suf)) = true := by
  induction pre with
  | nil =>
    cases n with
    | nil => cases suf <;> rfl
    | cons c cs =>
      show (leadsWith (c :: cs) (c :: (cs ++ suf)) || hasSub (c :: cs) (cs ++ suf)) = true
      rw [show c :: (cs ++ suf) = (c :: cs) ++ suf from rfl, leadsWith_append_self]
      rfl
  | cons p ps ih =>
    show (leadsWith n (p :: (ps ++ (n ++ suf))) || hasSub n (ps ++ (n ++ suf))) = true
    rw [ih, Bool.or_true]

/-- A string occurs as a substring of any string built around it. -/
theorem containsSub_append_middle (pre n suf : String) :
    containsSub n (pre ++ (n ++ suf)) = true := by
  unfold containsSub
  rw [strData_append, strData_append]
  exact hasSub_append_self n.data pre.data suf.data

/-- The router always selects one of the three configured tiers. -/
theorem route_model_type_mem (cfg : Config) (text priority : String) :
    (route cfg text priority).model_type = "gemini"
    ∨ (route cfg text priority).model_type = "llm"
    ∨ (route cfg text priority).model_type = "slm" := by
  simp only [route]
  split_ifs <;> simp

/-- The dispatch helper invokes its own provider once, and the gemini tier
at most once more; when it does invoke gemini, gemini's answer is the
helper's result and gemini is configured. -/
theorem tryGen_log (cfg : Config) (pv : Providers)
    (prov : String → Except String String) (t prompt mn : String) :
    (tryGenerateWithFallback cfg pv prov t prompt mn).2 = [t]
    ∨ ((tryGenerateWithFallback cfg pv prov t prompt mn).2 = [t, "gemini"]
        ∧ cfg.gemini_available = true
        ∧ (tryGenerateWithFallback cfg pv prov t prompt mn).1 = pv.gemini prompt) := by
  unfold tryGenerateWithFallback
  cases h : prov prompt with
  | ok r => left; rfl
  | error e =>
    by_cases hc : isConnectivityError e = true
    · by_cases hg : cfg.gemini_available = true
      · right; simp [hc, hg]
      · left; simp [hc, hg]
    · left; simp [hc]

/-- The `slm` exception handler appends at most one further dispatch to the
log: gemini when configured, otherwise the general tier. -/
theorem slmExcept_log (cfg : Config) (pv : Providers) (uf : Bool)
    (prompt : String) (d : RoutingDecision) (e : String) (log : List String) :
    (slmExcept cfg pv uf prompt d e log).2 = log
    ∨ (slmExcept cfg pv uf prompt d e log).2 = log ++ ["gemini"]
    ∨ ((slmExcept cfg pv uf prompt d e log).2 = log ++ ["llm"]
        ∧ cfg.gemini_available = false) := by
  unfold slmExcept
  by_cases h1 : (uf && cfg.fallback_enabled) = true
  · by_cases hg : cfg.gemini_available = true
    · cases h2 : pv.gemini prompt <;> simp [h1, hg]
    · have hg' : cfg.gemini_available = false := by
        cases hfact : cfg.gemini_available
        · rfl
        · exact absurd hfact hg
      rcases hl : tryGenerateWithFallback cfg pv pv.llm "llm" prompt "LLM" with ⟨res, lg⟩
      have hcases := tryGen_log cfg pv pv.llm "llm" prompt "LLM"
      rw [hl] at hcases
      rcases hcases with hlog | ⟨hlog, hgav, _⟩
      · simp only at hlog
        subst hlog
        cases res <;> simp [h1, hg', hl]
      · rw [hg'] at hgav
        exact absurd hgav (by simp)
  · simp [h1]

/-- When the `slm` exception handler produces a successful outcome, that
outcome carries `fallback_used = true`, the original decision, and a
populated `fallback_reason`. -/
theorem slmExcept_ok (cfg : Config) (pv : Providers) (uf : Bool)
    (prompt : String) (d : RoutingDecision) (e : String) (log : List String)
    (out : Outcome) (log2 : List String)
    (h : slmExcept cfg pv uf prompt d e log = (.ok out, log2)) :
    out.fallback_used = true ∧ out.decision = d
    ∧ ∃ s, out.fallback_reason = some s ∧ s ≠ "" := by
  unfold slmExcept at h
  by_cases h1 : (uf && cfg.fallback_enabled) = true
  · rw [if_pos h1] at h
    by_cases hg : cfg.gemini_available = true
    · rw [if_pos hg] at h
      cases h2 : pv.gemini prompt with
      | ok r =>
        rw [h2] at h
        simp only [Prod.mk.injEq, Except.ok.injEq] at h
        rcases h with ⟨hout, -⟩
        subst hout
        refine ⟨rfl, rfl, "SLM error: " ++ (e ++ ", using Gemini"), rfl, ?_⟩
        exact append_ne_empty _ _ (by decide)
      | error g =>
        rw [h2] at h
        simp at h
    · rw [if_neg hg] at h
      rcases hl : tryGenerateWithFallback cfg pv pv.llm "llm" prompt "LLM" with ⟨res, lg⟩
      rw [hl] at h
      cases res with
      | ok r =>
        simp only [Prod.mk.injEq, Except.ok.injEq] at h
        rcases h with ⟨hout, -⟩
        subst hout
        refine ⟨rfl, rfl, "SLM error: " ++ e, rfl, ?_⟩
        exact append_ne_empty _ _ (by decide)
      | error e2 => simp at h
  · rw [if_neg h1] at h
    simp at h

/-! ## Concrete fixtures for counterexamples and witnesses -/

/-- A configuration with the gemini tier present (thresholds as in the
source defaults, operator weights 0.3/0.3/0.4). -/
def cfgOrc : Config :=
  ⟨7/10, 100, 2000, 1000, true, 3/10, 3/10, 4/10, 1/10000, 1/1000, true, 1/2000⟩

/-- A configuration without the gemini tier, pure-latency weights, used to
exercise the weighted-score branch. -/
def cfgNoGem : Config :=
  ⟨8/10, 100, 2000, 1000, true, 0, 1, 0, 0, 0, false, 0⟩

/-- A configuration whose `large_input_threshold` is tiny, for exercising
the large-input rule. -/
def cfgBig : Config :=
  ⟨7/10, 100, 2, 1, true, 3/10, 3/10, 4/10, 1/10000, 1/1000, true, 1/2000⟩

/-- A text whose complexity score is 0.718: it reaches the weighted-score
branch of `route` under `cfgNoGem` yet fails the `complexity < 0.7` guard of
the local-tier case. -/
def textC1 : String :=
  "analyze explain algorithm foo? bar? one two three four five"

/-- Providers where the local tier is down (connectivity error) and the
gemini tier also fails. -/
def pvCascade : Providers :=
  ⟨fun _ => .error "Ollama API error: connection error",
   fun _ => .ok "llm response unused",
   fun _ => .error "Gemini API error: boom"⟩

/-- Providers where the local tier is down (connectivity error) and the
gemini tier answers. -/
def pvSilent : Providers :=
  ⟨fun _ => .error "Ollama API error: connection error",
   fun _ => .ok "llm response unused",
   fun _ => .ok "a long and helpful gemini answer"⟩

/-- Providers whose local tier returns the empty string (used for the
distillation refinement stage) and whose gemini tier answers. -/
def pvRefine : Providers :=
  ⟨fun _ => .ok "",
   fun _ => .ok "llm answer text",
   fun _ => .ok "forty two, obviously, always"⟩

/-- Providers whose local tier returns a decent answer. -/
def pvGood : Providers :=
  ⟨fun _ => .ok "a decent quality long answer",
   fun _ => .ok "llm answer text",
   fun _ => .ok "gemini answer text here"⟩

/-! ## Concrete evaluations (string-level facts by kernel computation,
rational facts by `norm_num`) -/

theorem wc_hi : wordCount "hi" = 1 := by decide

theorem tokens_hi : estimateTokens "hi" = 13/10 := by
  unfold estimateTokens
  rw [wc_hi]
  norm_num

theorem complexity_hi : analyze_complexity "hi" = 7/500 := by
  have h1 : wordCount "hi" = 1 := by decide
  have h2 : ("hi" : String).length = 2 := by decide
  have h3 : charOccurrences "hi" '?' = 0 := by decide
  have h4 : keywordMatches complexKeywords "hi" = 0 := by decide
  have h5 : keywordMatches technicalKeywords "hi" = 0 := by decide
  unfold analyze_complexity
  rw [h1, h2, h3, h4, h5]
  norm_num [min_def]

theorem route_hi_cost : route cfgOrc "hi" "cost" =
    ⟨"slm", 0.8, "Low complexity task, cost-optimized",
     estimateCost cfgOrc "hi" "slm", estimateLatency "hi" "slm"⟩ := by
  simp only [route]
  rw [if_neg (by rw [tokens_hi]; norm_num [cfgOrc]),
      if_pos (by norm_num [complexity_hi, wc_hi, cfgOrc])]

/-! String-literal disequalities used to discharge tier-name tests inside
`estimateCost`, `estimateLatency` and `route`. -/

theorem str_slm_gemini : (("slm" : String) = "gemini") = False := eq_false (by decide)

theorem str_slm_llm : (("slm" : String) = "llm") = False := eq_false (by decide)

theorem str_llm_gemini : (("llm" : String) = "gemini") = False := eq_false (by decide)

theorem str_balanced_cost : (("balanced" : String) = "cost") = False := eq_false (by decide)

theorem str_balanced_speed : (("balanced" : String) = "speed") = False := eq_false (by decide)

theorem str_cost_speed : (("cost" : String) = "speed") = False := eq_false (by decide)

theorem wc_textC1 : wordCount textC1 = 10 := by decide

theorem tokens_textC1 : estimateTokens textC1 = 13 := by
  unfold estimateTokens
  rw [wc_textC1]
  norm_num

theorem complexity_textC1 : analyze_complexity textC1 = 359/500 := by
  have h1 := wc_textC1
  have h2 : textC1.length = 59 := by decide
  have h3 : charOccurrences textC1 '?' = 2 := by decide
  have h4 : keywordMatches complexKeywords textC1 = 2 := by decide
  have h5 : keywordMatches technicalKeywords textC1 = 1 := by decide
  unfold analyze_complexity
  rw [h1, h2, h3, h4, h5]
  norm_num [min_def]

theorem route_textC1 : (route cfgNoGem textC1 "balanced").model_type = "llm" := by
  simp only [route]
  norm_num [complexity_textC1, wc_textC1, tokens_textC1, cfgNoGem, str_balanced_cost,
    str_balanced_speed]

theorem llmScore_lt_slmScore_textC1 :
    llmScore cfgNoGem textC1 < slmScore cfgNoGem textC1 := by
  unfold llmScore slmScore
  norm_num [estimateCost, estimateLatency, tokens_textC1, complexity_textC1, cfgNoGem,
    min_def, max_def, str_slm_gemini, str_slm_llm, str_llm_gemini]

theorem specChoice_textC1 : specWeightedChoice cfgNoGem textC1 = "slm" := by
  simp only [specWeightedChoice]
  rw [if_neg (by simp [cfgNoGem]), if_pos (le_of_lt llmScore_lt_slmScore_textC1)]

theorem wc_helloworld : wordCount "hello world" = 2 := by decide

theorem tokens_helloworld : estimateTokens "hello world" = 13/5 := by
  unfold estimateTokens
  rw [wc_helloworld]
  norm_num

theorem complexity_helloworld : analyze_complexity "hello world" = 21/500 := by
  have h1 := wc_helloworld
  have h2 : ("hello world" : String).length = 11 := by decide
  have h3 : charOccurrences "hello world" '?' = 0 := by decide
  have h4 : keywordMatches complexKeywords "hello world" = 0 := by decide
  have h5 : keywordMatches technicalKeywords "hello world" = 0 := by decide
  unfold analyze_complexity
  rw [h1, h2, h3, h4, h5]
  norm_num [min_def]

theorem geminiWeighted_helloworld : geminiWeighted cfgOrc "hello world" = (0, 0, 0) := by
  unfold geminiWeighted
  rw [if_neg (by rw [tokens_helloworld]; norm_num [cfgOrc])]

theorem llmScore_lt_slmScore_helloworld :
    llmScore cfgOrc "hello world" < slmScore cfgOrc "hello world" := by
  unfold llmScore slmScore
  norm_num [estimateCost, estimateLatency, tokens_helloworld, complexity_helloworld, cfgOrc,
    min_def, max_def, str_slm_gemini, str_slm_llm, str_llm_gemini]

/-! ## Claim theorems -/

/-- C4: for every text, `analyze_complexity` equals the sum of the five
independently capped sub-scores — min(word_count/100, 0.30),
min(char_count/500, 0.20), min(0.10*question_marks, 0.20),
min(0.15*complex_verb_matches, 0.20), min(0.10*technical_noun_matches, 0.10),
keywords counted case-insensitively as whole words — capped at 1.0;
the result lies in [0,1] and the empty text yields 0. -/
theorem analyze_complexity_formula :
    (∀ text : String,
      analyze_complexity text =
        min (min ((wordCount text : ℚ) / 100) 0.3
          + min ((text.length : ℚ) / 500) 0.2
          + min (0.1 * (charOccurrences text '?' : ℚ)) 0.2
          + min (0.15 * (keywordMatches complexKeywords text : ℚ)) 0.2
          + min (0.1 * (keywordMatches technicalKeywords text : ℚ)) 0.1) 1
      ∧ 0 ≤ analyze_complexity text ∧ analyze_complexity text ≤ 1)
    ∧ analyze_complexity "" = 0 := by
  constructor
  · intro text
    refine ⟨?_, ?_, ?_⟩
    · simp only [analyze_complexity]
      rw [mul_comm (charOccurrences text '?' : ℚ) 0.1,
          mul_comm (keywordMatches complexKeywords text : ℚ) 0.15,
          mul_comm (keywordMatches technicalKeywords text : ℚ) 0.1]
    · simp only [analyze_complexity]
      positivity
    · simp only [analyze_complexity]
      exact min_le_right _ _
  · have h1 : wordCount "" = 0 := by decide
    have h2 : ("" : String).length = 0 := by decide
    have h3 : charOccurrences "" '?' = 0 := by decide
    have h4 : keywordMatches complexKeywords "" = 0 := by decide
    have h5 : keywordMatches technicalKeywords "" = 0 := by decide
    unfold analyze_complexity
    rw [h1, h2, h3, h4, h5]
    norm_num [min_def]

/-- C10: `analyze_complexity` is monotonically non-decreasing in each of the
underlying counts: a text whose word count, character count, question-mark
count and keyword-match counts all dominate another's scores at least as
high. -/
theorem analyze_complexity_monotone (t1 t2 : String)
    (hw : wordCount t1 ≤ wordCount t2) (hc : t1.length ≤ t2.length)
    (hq : charOccurrences t1 '?' ≤ charOccurrences t2 '?')
    (hx : keywordMatches complexKeywords t1 ≤ keywordMatches complexKeywords t2)
    (ht : keywordMatches technicalKeywords t1 ≤ keywordMatches technicalKeywords t2) :
    analyze_complexity t1 ≤ analyze_complexity t2 := by
  simp only [analyze_complexity]
  gcongr

/-- Witness for C10 at the concrete pair `"hi"` and
`"explain the algorithm? ok?"`. -/
theorem analyze_complexity_monotone_witness :
    wordCount "hi" ≤ wordCount "explain the algorithm? ok?"
    ∧ ("hi" : String).length ≤ ("explain the algorithm? ok?" : String).length
    ∧ charOccurrences "hi" '?' ≤ charOccurrences "explain the algorithm? ok?" '?'
    ∧ keywordMatches complexKeywords "hi" ≤ keywordMatches complexKeywords "explain the algorithm? ok?"
    ∧ keywordMatches technicalKeywords "hi" ≤ keywordMatches technicalKeywords "explain the algorithm? ok?"
    ∧ analyze_complexity "hi" ≤ analyze_complexity "explain the algorithm? ok?" :=
  ⟨by decide, by decide, by decide, by decide, by decide,
   analyze_complexity_monotone "hi" "explain the algorithm? ok?"
     (by decide) (by decide) (by decide) (by decide) (by decide)⟩

/-- C9: `route` is deterministic — two calls with identical text, priority
and configuration return decisions identical in every field (no hidden
state, no randomness: the embedding of `route` is a pure function of its
three arguments). -/
theorem route_deterministic (cfg : Config) (t1 t2 p1 p2 : String)
    (htext : t1 = t2) (hprio : p1 = p2) :
    route cfg t1 p1 = route cfg t2 p2
    ∧ (route cfg t1 p1).model_type = (route cfg t2 p2).model_type
    ∧ (route cfg t1 p1).confidence = (route cfg t2 p2).confidence
    ∧ (route cfg t1 p1).reason = (route cfg t2 p2).reason
    ∧ (route cfg t1 p1).estimated_cost = (route cfg t2 p2).estimated_cost
    ∧ (route cfg t1 p1).estimated_latency = (route cfg t2 p2).estimated_latency := by
  subst htext
  subst hprio
  exact ⟨rfl, rfl, rfl, rfl, rfl, rfl⟩

/-- Witness for C9 at a concrete call. -/
theorem route_deterministic_witness :
    ("hi" : String) = "hi" ∧ ("cost" : String) = "cost"
    ∧ (route cfgOrc "hi" "cost" = route cfgOrc "hi" "cost"
       ∧ (route cfgOrc "hi" "cost").model_type = (route cfgOrc "hi" "cost").model_type
       ∧ (route cfgOrc "hi" "cost").confidence = (route cfgOrc "hi" "cost").confidence
       ∧ (route cfgOrc "hi" "cost").reason = (route cfgOrc "hi" "cost").reason
       ∧ (route cfgOrc "hi" "cost").estimated_cost = (route cfgOrc "hi" "cost").estimated_cost
       ∧ (route cfgOrc "hi" "cost").estimated_latency = (route cfgOrc "hi" "cost").estimated_latency) :=
  ⟨rfl, rfl, route_deterministic cfgOrc "hi" "hi" "cost" "cost" rfl rfl⟩

/-- C5: whenever the token estimate reaches `large_input_threshold` and the
fast-cloud tier is configured, `route` selects gemini with confidence 0.95
and a reason citing the token count, regardless of the priority argument. -/
theorem route_large_input (cfg : Config) (text priority : String)
    (hgem : cfg.gemini_available = true)
    (hbig : cfg.large_input_threshold ≤ estimateTokens text) :
    route cfg text priority =
      ⟨"gemini", 0.95,
       "Very large input (" ++ fmt0f (estimateTokens text)
         ++ " tokens) - routing to Gemini for speed and reliability",
       estimateCost cfg text "gemini", estimateLatency text "gemini"⟩ := by
  simp only [route]
  rw [if_pos ⟨hbig, hgem⟩]

theorem tokens_abc : estimateTokens "a b c" = 39/10 := by
  unfold estimateTokens
  rw [show wordCount "a b c" = 3 from by decide]
  norm_num

/-- Witness for C5 at a concrete large input (threshold 2 tokens, priority
`cost` is overridden). -/
theorem route_large_input_witness :
    cfgBig.gemini_available = true
    ∧ cfgBig.large_input_threshold ≤ estimateTokens "a b c"
    ∧ route cfgBig "a b c" "cost" =
        ⟨"gemini", 0.95,
         "Very large input (" ++ fmt0f (estimateTokens "a b c")
           ++ " tokens) - routing to Gemini for speed and reliability",
         estimateCost cfgBig "a b c" "gemini", estimateLatency "a b c" "gemini"⟩ :=
  ⟨rfl, by rw [tokens_abc]; norm_num [cfgBig],
   route_large_input cfgBig "a b c" "cost" rfl (by rw [tokens_abc]; norm_num [cfgBig])⟩

/-- C6: the quality gate fails exactly when the response is under 10
characters, or shorter than a tenth of the prompt, or contains at least two
of the five indicator phrases; in particular `"sorry, error, unable"` against
`"Explain quantum computing"` fails. -/
theorem check_quality_iff :
    (∀ response prompt : String,
      (checkResponseQuality response prompt = false ↔
        response.length < 10
        ∨ (response.length : ℚ) < (prompt.length : ℚ) * 0.1
        ∨ 2 ≤ indicatorCount response))
    ∧ checkResponseQuality "sorry, error, unable" "Explain quantum computing" = false := by
  constructor
  · intro response prompt
    unfold checkResponseQuality
    split_ifs with h1 h2
    · simp [h1]
    · simp [h1, h2]
    · simp only [decide_eq_false_iff_not, not_lt]
      constructor
      · intro h
        exact Or.inr (Or.inr h)
      · rintro (h | h | h)
        · exact absurd h h1
        · exact absurd h h2
        · exact h
  · have hr : ("sorry, error, unable" : String).length = 20 := by decide
    have hp : ("Explain quantum computing" : String).length = 25 := by decide
    have hi : indicatorCount "sorry, error, unable" = 3 := by decide
    unfold checkResponseQuality
    rw [if_neg (by rw [hr]; norm_num), if_neg (by rw [hr, hp]; norm_num), hi]
    rfl

/-- C1 (amended): in the weighted-score branch of `route` (no earlier rule
fired), the fast-cloud tier is selected iff it is configured, its score is
strictly positive, and its score is at least both other scores; otherwise
the local tier is selected iff its score strictly exceeds the general
tier's and the complexity is below 0.7; otherwise the general tier.  The
confidence is 0.85 for fast-cloud and general and 0.7 for local. -/
theorem route_weighted_branch (cfg : Config) (text priority : String)
    (h1 : ¬(cfg.large_input_threshold ≤ estimateTokens text ∧ cfg.gemini_available = true))
    (h2 : ¬(priority = "cost" ∧ analyze_complexity text < 0.8
            ∧ (wordCount text : ℚ) < cfg.max_slm_tokens))
    (h3 : ¬(priority = "speed" ∧ cfg.gemini_preferred_threshold ≤ estimateTokens text
            ∧ cfg.gemini_available = true))
    (h4 : ¬(priority = "speed" ∧ analyze_complexity text < 0.7))
    (h5 : ¬(cfg.complexity_threshold < analyze_complexity text
            ∨ cfg.max_slm_tokens < (wordCount text : ℚ))) :
    (route cfg text priority).model_type =
      (if cfg.gemini_available = true ∧ 0 < (geminiWeighted cfg text).1
          ∧ max (llmScore cfg text) (slmScore cfg text) ≤ (geminiWeighted cfg text).1
       then "gemini"
       else if llmScore cfg text < slmScore cfg text ∧ analyze_complexity text < 0.7
       then "slm" else "llm")
    ∧ (route cfg text priority).confidence =
      (if cfg.gemini_available = true ∧ 0 < (geminiWeighted cfg text).1
          ∧ max (llmScore cfg text) (slmScore cfg text) ≤ (geminiWeighted cfg text).1
       then 0.85
       else if llmScore cfg text < slmScore cfg text ∧ analyze_complexity text < 0.7
       then 0.7 else 0.85) := by
  simp only [route]
  rw [if_neg h1, if_neg h2, if_neg h3, if_neg h4, if_neg h5]
  constructor <;> split_ifs <;> rfl

/-- Witness for C1 (amended) at `cfgOrc` and `"hello world"`: the weighted
branch is reached, the local tier wins, and the confidence is 0.7. -/
theorem route_weighted_branch_witness :
    ¬(cfgOrc.large_input_threshold ≤ estimateTokens "hello world"
        ∧ cfgOrc.gemini_available = true)
    ∧ ¬(("balanced" : String) = "cost" ∧ analyze_complexity "hello world" < 0.8
        ∧ (wordCount "hello world" : ℚ) < cfgOrc.max_slm_tokens)
    ∧ ¬(("balanced" : String) = "speed"
        ∧ cfgOrc.gemini_preferred_threshold ≤ estimateTokens "hello world"
        ∧ cfgOrc.gemini_available = true)
    ∧ ¬(("balanced" : String) = "speed" ∧ analyze_complexity "hello world" < 0.7)
    ∧ ¬(cfgOrc.complexity_threshold < analyze_complexity "hello world"
        ∨ cfgOrc.max_slm_tokens < (wordCount "hello world" : ℚ))
    ∧ (route cfgOrc "hello world" "balanced").model_type = "slm"
    ∧ (route cfgOrc "hello world" "balanced").confidence = 0.7 := by
  have hh1 : ¬(cfgOrc.large_input_threshold ≤ estimateTokens "hello world"
      ∧ cfgOrc.gemini_available = true) := by
    rw [tokens_helloworld]
    norm_num [cfgOrc]
  have hh2 : ¬(("balanced" : String) = "cost" ∧ analyze_complexity "hello world" < 0.8
      ∧ (wordCount "hello world" : ℚ) < cfgOrc.max_slm_tokens) := by
    intro hcon
    exact absurd hcon.1 (by decide)
  have hh3 : ¬(("balanced" : String) = "speed"
      ∧ cfgOrc.gemini_preferred_threshold ≤ estimateTokens "hello world"
      ∧ cfgOrc.gemini_available = true) := by
    intro hcon
    exact absurd hcon.1 (by decide)
  have hh4 : ¬(("balanced" : String) = "speed" ∧ analyze_complexity "hello world" < 0.7) := by
    intro hcon
    exact absurd hcon.1 (by decide)
  have hh5 : ¬(cfgOrc.complexity_threshold < analyze_complexity "hello world"
      ∨ cfgOrc.max_slm_tokens < (wordCount "hello world" : ℚ)) := by
    rw [complexity_helloworld, wc_helloworld]
    norm_num [cfgOrc]
  have hgw : ¬(cfgOrc.gemini_available = true ∧ 0 < (geminiWeighted cfgOrc "hello world").1
      ∧ max (llmScore cfgOrc "hello world") (slmScore cfgOrc "hello world")
          ≤ (geminiWeighted cfgOrc "hello world").1) := by
    rw [geminiWeighted_helloworld]
    norm_num
  have hslm : llmScore cfgOrc "hello world" < slmScore cfgOrc "hello world"
      ∧ analyze_complexity "hello world" < 0.7 :=
    ⟨llmScore_lt_slmScore_helloworld, by rw [complexity_helloworld]; norm_num⟩
  have h := route_weighted_branch cfgOrc "hello world" "balanced" hh1 hh2 hh3 hh4 hh5
  refine ⟨hh1, hh2, hh3, hh4, hh5, ?_, ?_⟩
  · rw [h.1, if_neg hgw, if_pos hslm]
  · rw [h.2, if_neg hgw, if_pos hslm]

/-- C1 (counterexample): under `cfgNoGem` and `textC1` the weighted branch
is reached, the local tier has the strictly highest weighted score (the
fast-cloud tier is not configured), so the spec's highest-score selection
gives local, but `route` selects the general tier. -/
theorem route_weighted_not_highest_cex :
    ¬(cfgNoGem.large_input_threshold ≤ estimateTokens textC1
        ∧ cfgNoGem.gemini_available = true)
    ∧ ("balanced" : String) ≠ "cost"
    ∧ ("balanced" : String) ≠ "speed"
    ∧ ¬(cfgNoGem.complexity_threshold < analyze_complexity textC1
        ∨ cfgNoGem.max_slm_tokens < (wordCount textC1 : ℚ))
    ∧ llmScore cfgNoGem textC1 < slmScore cfgNoGem textC1
    ∧ cfgNoGem.gemini_available = false
    ∧ specWeightedChoice cfgNoGem textC1 = "slm"
    ∧ (route cfgNoGem textC1 "balanced").model_type = "llm" := by
  refine ⟨?_, by decide, by decide, ?_, llmScore_lt_slmScore_textC1, rfl,
    specChoice_textC1, route_textC1⟩
  · rw [tokens_textC1]
    norm_num [cfgNoGem]
  · rw [complexity_textC1, wc_textC1]
    norm_num [cfgNoGem]

/-! ## Evaluation lemmas for the dispatch helper -/

theorem tryGen_ok (cfg : Config) (pv : Providers)
    (prov : String → Except String String) (t prompt mn r : String)
    (h : prov prompt = .ok r) :
    tryGenerateWithFallback cfg pv prov t prompt mn = (.ok r, [t]) := by
  unfold tryGenerateWithFallback
  rw [h]

theorem tryGen_conn (cfg : Config) (pv : Providers)
    (prov : String → Except String String) (t prompt mn e : String)
    (h : prov prompt = .error e) (hc : isConnectivityError e = true)
    (hg : cfg.gemini_available = true) :
    tryGenerateWithFallback cfg pv prov t prompt mn = (pv.gemini prompt, [t, "gemini"]) := by
  unfold tryGenerateWithFallback
  rw [h]
  simp [hc, hg]

theorem tryGen_err (cfg : Config) (pv : Providers)
    (prov : String → Except String String) (t prompt mn e : String)
    (h : prov prompt = .error e) (hc : isConnectivityError e = false) :
    tryGenerateWithFallback cfg pv prov t prompt mn = (.error e, [t]) := by
  unfold tryGenerateWithFallback
  rw [h]
  simp [hc]

theorem containsSub_append_end (pre n : String) : containsSub n (pre ++ n) = true := by
  unfold containsSub
  rw [strData_append]
  have h := hasSub_append_self n.data pre.data []
  rwa [List.append_nil] at h

/-- C3 (amended): when the decision is the local tier and the local tier
fails with a non-connectivity error, the fallback being the configured
fast-cloud tier which also fails, `process` raises a single terminal error
containing both the local tier's error text and the fallback tier's error
text.  (When the local failure is a connectivity error the dispatch helper
silently retries gemini first, and the local error text is replaced by the
retry's error — see the counterexample.) -/
theorem process_exhaustion_aggregates (cfg : Config) (pv : Providers)
    (prompt priority e g : String)
    (hmt : (route cfg prompt priority).model_type = "slm")
    (hslm : pv.slm prompt = .error e)
    (hconn : isConnectivityError e = false)
    (hfb : cfg.fallback_enabled = true)
    (hgem : cfg.gemini_available = true)
    (hg : pv.gemini prompt = .error g) :
    (process cfg pv prompt priority true).1 =
      .error ("All models failed. SLM: " ++ e ++ ", LLM/Gemini: " ++ g)
    ∧ containsSub e ("All models failed. SLM: " ++ e ++ ", LLM/Gemini: " ++ g) = true
    ∧ containsSub g ("All models failed. SLM: " ++ e ++ ", LLM/Gemini: " ++ g) = true := by
  refine ⟨?_, ?_, ?_⟩
  · simp only [process]
    rw [if_neg (by rw [hmt]; decide), if_neg (by rw [hmt]; decide),
        tryGen_err cfg pv pv.slm "slm" prompt "SLM" e hslm hconn]
    simp only [slmExcept, hfb, Bool.and_self, if_pos hgem, hg, if_true]
  · unfold containsSub
    simp only [strData_append, List.append_assoc]
    exact hasSub_append_self e.data "All models failed. SLM: ".data
      (", LLM/Gemini: ".data ++ g.data)
  · unfold containsSub
    simp only [strData_append]
    have h2 := hasSub_append_self g.data
      ("All models failed. SLM: ".data ++ (e.data ++ ", LLM/Gemini: ".data)) []
    simpa [List.append_assoc] using h2

/-- Witness for C3 (amended) at concrete providers: the local tier fails
with a non-connectivity error, gemini fails too, and the terminal error
carries both texts. -/
theorem process_exhaustion_aggregates_witness :
    (route cfgOrc "hi" "cost").model_type = "slm"
    ∧ Providers.slm
        ⟨fun _ => .error "Ollama API error: model not found",
         fun _ => .ok "llm text", fun _ => .error "Gemini API error: boom"⟩ "hi"
        = .error "Ollama API error: model not found"
    ∧ isConnectivityError "Ollama API error: model not found" = false
    ∧ cfgOrc.fallback_enabled = true
    ∧ cfgOrc.gemini_available = true
    ∧ (process cfgOrc
        ⟨fun _ => .error "Ollama API error: model not found",
         fun _ => .ok "llm text", fun _ => .error "Gemini API error: boom"⟩
        "hi" "cost" true).1 =
        .error ("All models failed. SLM: " ++ "Ollama API error: model not found"
          ++ ", LLM/Gemini: " ++ "Gemini API error: boom")
    ∧ containsSub "Ollama API error: model not found"
        ("All models failed. SLM: " ++ "Ollama API error: model not found"
          ++ ", LLM/Gemini: " ++ "Gemini API error: boom") = true
    ∧ containsSub "Gemini API error: boom"
        ("All models failed. SLM: " ++ "Ollama API error: model not found"
          ++ ", LLM/Gemini: " ++ "Gemini API error: boom") = true := by
  have hmt : (route cfgOrc "hi" "cost").model_type = "slm" := by rw [route_hi_cost]
  have h := process_exhaustion_aggregates cfgOrc
    ⟨fun _ => .error "Ollama API error: model not found",
     fun _ => .ok "llm text", fun _ => .error "Gemini API error: boom"⟩
    "hi" "cost" "Ollama API error: model not found" "Gemini API error: boom"
    hmt rfl (by decide) rfl rfl rfl
  exact ⟨hmt, rfl, by decide, rfl, rfl, h.1, h.2.1, h.2.2⟩

/-- C3 (counterexample): when the local tier fails with a connectivity
error, the helper silently retries gemini; if gemini fails, the terminal
error reports gemini's error in the SLM slot and the local tier's own error
text is absent from the final report. -/
theorem process_drops_primary_error_cex :
    pvCascade.slm "hi" = .error "Ollama API error: connection error"
    ∧ (process cfgOrc pvCascade "hi" "cost" true).1 =
        .error "All models failed. SLM: Gemini API error: boom, LLM/Gemini: Gemini API error: boom"
    ∧ containsSub "Ollama API error: connection error"
        "All models failed. SLM: Gemini API error: boom, LLM/Gemini: Gemini API error: boom"
        = false := by
  refine ⟨rfl, ?_, by decide⟩
  simp only [process, route_hi_cost]
  rw [if_neg (by decide), if_neg (by decide),
      tryGen_conn cfgOrc pvCascade pvCascade.slm "slm" "hi" "SLM"
        "Ollama API error: connection error" rfl (by decide) rfl]
  simp only [slmExcept, Bool.and_self, if_pos rfl]
  rfl

/-- C8 (amended): under the stateless-backend model, one `process` call
invokes the local tier's generate at most once, and the general and
fast-cloud tiers at most twice each (a second dispatch of the same tier
happens when a failed fallback dispatch inside the `try` block is retried
by the exception handler). -/
theorem process_invocation_bounds (cfg : Config) (pv : Providers)
    (prompt priority : String) (uf : Bool) :
    ((process cfg pv prompt priority uf).2.count "slm" ≤ 1)
    ∧ ((process cfg pv prompt priority uf).2.count "llm" ≤ 2)
    ∧ ((process cfg pv prompt priority uf).2.count "gemini" ≤ 2) := by
  by_cases h1 : (route cfg prompt priority).model_type = "gemini"
  · simp only [process, if_pos h1]
    by_cases hga : cfg.gemini_available = true
    · rw [if_pos hga]
      cases hg : pv.gemini prompt <;> dsimp only <;> refine ⟨?_, ?_, ?_⟩ <;> (try dsimp only) <;> decide
    · rw [if_neg hga]
      refine ⟨?_, ?_, ?_⟩ <;> (try dsimp only) <;> decide
  · by_cases h2 : (route cfg prompt priority).model_type = "llm"
    · simp only [process, if_neg h1, if_pos h2]
      rcases hh : tryGenerateWithFallback cfg pv pv.llm "llm" prompt "LLM" with ⟨res, lg⟩
      have hlogd := tryGen_log cfg pv pv.llm "llm" prompt "LLM"
      rw [hh] at hlogd
      have hlg : lg = ["llm"] ∨ lg = ["llm", "gemini"] := by
        rcases hlogd with h | ⟨h, -, -⟩
        · exact Or.inl h
        · exact Or.inr h
      cases res with
      | ok r =>
        dsimp only
        rcases hlg with h | h <;> rw [h] <;> refine ⟨?_, ?_, ?_⟩ <;> (try dsimp only) <;> decide
      | error e =>
        dsimp only
        by_cases hga : cfg.gemini_available = true
        · rw [if_pos hga]
          cases hg : pv.gemini prompt <;> dsimp only <;>
            (rcases hlg with h | h <;> rw [h] <;> refine ⟨?_, ?_, ?_⟩ <;> (try dsimp only) <;> decide)
        · rw [if_neg hga]
          rcases hlg with h | h <;> rw [h] <;> refine ⟨?_, ?_, ?_⟩ <;> (try dsimp only) <;> decide
    · simp only [process, if_neg h1, if_neg h2]
      rcases hh : tryGenerateWithFallback cfg pv pv.slm "slm" prompt "SLM" with ⟨res, lg⟩
      have hlogd := tryGen_log cfg pv pv.slm "slm" prompt "SLM"
      rw [hh] at hlogd
      cases res with
      | error e =>
        dsimp only
        have hlg : lg = ["slm"] ∨ lg = ["slm", "gemini"] := by
          rcases hlogd with h | ⟨h, -, -⟩
          · exact Or.inl h
          · exact Or.inr h
        rcases slmExcept_log cfg pv uf prompt (route cfg prompt priority) e lg
          with hs | hs | ⟨hs, -⟩ <;> rw [hs] <;>
          (rcases hlg with h | h <;> rw [h] <;> refine ⟨?_, ?_, ?_⟩ <;> (try dsimp only) <;> decide)
      | ok r =>
        dsimp only
        by_cases hq : (uf && cfg.fallback_enabled && !(checkResponseQuality r prompt)) = true
        · rw [if_pos hq]
          by_cases hga : cfg.gemini_available = true
          · rw [if_pos hga]
            cases hg : pv.gemini prompt with
            | ok r2 =>
              dsimp only
              have hlg : lg = ["slm"] ∨ lg = ["slm", "gemini"] := by
                rcases hlogd with h | ⟨h, -, -⟩
                · exact Or.inl h
                · exact Or.inr h
              rcases hlg with h | h <;> rw [h] <;> refine ⟨?_, ?_, ?_⟩ <;> (try dsimp only) <;> decide
            | error g =>
              dsimp only
              have hlg : lg = ["slm"] := by
                rcases hlogd with h | ⟨-, -, hres⟩
                · exact h
                · rw [hg] at hres
                  simp at hres
              rcases slmExcept_log cfg pv uf prompt (route cfg prompt priority) g
                (lg ++ ["gemini"]) with hs | hs | ⟨hs, -⟩ <;> rw [hs, hlg] <;>
                refine ⟨?_, ?_, ?_⟩ <;> (try dsimp only) <;> decide
          · rw [if_neg hga]
            have hga2 : cfg.gemini_available = false := by
              cases hfact : cfg.gemini_available
              · rfl
              · exact absurd hfact hga
            have hlg : lg = ["slm"] := by
              rcases hlogd with h | ⟨-, hgav, -⟩
              · exact h
              · rw [hga2] at hgav
                exact absurd hgav (by simp)
            rcases hh2 : tryGenerateWithFallback cfg pv pv.llm "llm" prompt "LLM" with ⟨res2, lg2⟩
            have hlogd2 := tryGen_log cfg pv pv.llm "llm" prompt "LLM"
            rw [hh2] at hlogd2
            have hlg2 : lg2 = ["llm"] := by
              rcases hlogd2 with h | ⟨-, hgav, -⟩
              · exact h
              · rw [hga2] at hgav
                exact absurd hgav (by simp)
            cases res2 with
            | ok r2 =>
              dsimp only
              rw [hlg, hlg2]
              refine ⟨?_, ?_, ?_⟩ <;> (try dsimp only) <;> decide
            | error e2 =>
              dsimp only
              rcases slmExcept_log cfg pv uf prompt (route cfg prompt priority) e2
                (lg ++ lg2) with hs | hs | ⟨hs, -⟩ <;> rw [hs, hlg, hlg2] <;>
                refine ⟨?_, ?_, ?_⟩ <;> (try dsimp only) <;> decide
        · rw [if_neg hq]
          have hlg : lg = ["slm"] ∨ lg = ["slm", "gemini"] := by
            rcases hlogd with h | ⟨h, -, -⟩
            · exact Or.inl h
            · exact Or.inr h
          rcases hlg with h | h <;> rw [h] <;> refine ⟨?_, ?_, ?_⟩ <;> (try dsimp only) <;> decide

/-- C8 (counterexample): with the local tier down (connectivity error) and
gemini failing, one `process` call dispatches to the gemini tier twice. -/
theorem process_repeat_invocation_cex :
    (process cfgOrc pvCascade "hi" "cost" true).2 = ["slm", "gemini", "gemini"]
    ∧ ((process cfgOrc pvCascade "hi" "cost" true).2.count "gemini" = 2) := by
  have hlog : (process cfgOrc pvCascade "hi" "cost" true).2 = ["slm", "gemini", "gemini"] := by
    simp only [process, route_hi_cost]
    rw [if_neg (by decide), if_neg (by decide),
        tryGen_conn cfgOrc pvCascade pvCascade.slm "slm" "hi" "SLM"
          "Ollama API error: connection error" rfl (by decide) rfl]
    simp only [pvCascade, slmExcept, cfgOrc, Bool.and_self, if_true]
    rfl
  exact ⟨hlog, by rw [hlog]; decide⟩

/-- C2 (amended): every successful outcome of `process` contains
`fallback_reason` iff `fallback_used`, and whenever the reported
`model_used` differs from `decision.model_type`, `fallback_used` is true
and `fallback_reason` is a populated string.  (A connectivity failure
silently retried inside the dispatch helper is not reflected: the outcome
then reports `model_used = decision.model_type` with `fallback_used =
false` even though another tier produced the response — see the
counterexample.) -/
theorem process_fallback_report (cfg : Config) (pv : Providers)
    (prompt priority : String) (uf : Bool) (out : Outcome)
    (h : (process cfg pv prompt priority uf).1 = .ok out) :
    (out.fallback_reason.isSome = out.fallback_used)
    ∧ (out.model_used ≠ out.decision.model_type →
        out.fallback_used = true ∧ ∃ s, out.fallback_reason = some s ∧ s ≠ "") := by
  by_cases h1 : (route cfg prompt priority).model_type = "gemini"
  · simp only [process, if_pos h1] at h
    by_cases hga : cfg.gemini_available = true
    · rw [if_pos hga] at h
      cases hg : pv.gemini prompt with
      | ok r =>
        rw [hg] at h
        dsimp only at h
        simp only [Except.ok.injEq] at h
        subst h
        refine ⟨rfl, fun hne => ?_⟩
        exact absurd h1.symm hne
      | error e =>
        rw [hg] at h
        dsimp only at h
        simp at h
    · rw [if_neg hga] at h
      dsimp only at h
      simp at h
  · by_cases h2 : (route cfg prompt priority).model_type = "llm"
    · simp only [process, if_neg h1, if_pos h2] at h
      rcases hh : tryGenerateWithFallback cfg pv pv.llm "llm" prompt "LLM" with ⟨res, lg⟩
      rw [hh] at h
      cases res with
      | ok r =>
        dsimp only at h
        simp only [Except.ok.injEq] at h
        subst h
        refine ⟨rfl, fun hne => ?_⟩
        exact absurd h2.symm hne
      | error e =>
        dsimp only at h
        by_cases hga : cfg.gemini_available = true
        · rw [if_pos hga] at h
          cases hg : pv.gemini prompt with
          | ok r =>
            rw [hg] at h
            dsimp only at h
            simp only [Except.ok.injEq] at h
            subst h
            refine ⟨rfl, fun _ => ⟨rfl, "LLM error: " ++ e ++ ", using Gemini", rfl, ?_⟩⟩
            refine append_ne_empty _ _ ?_
            rw [strLength_append]
            have h11 : ("LLM error: " : String).length = 11 := rfl
            omega
          | error g =>
            rw [hg] at h
            dsimp only at h
            simp at h
        · rw [if_neg hga] at h
          dsimp only at h
          simp at h
    · simp only [process, if_neg h1, if_neg h2] at h
      rcases hh : tryGenerateWithFallback cfg pv pv.slm "slm" prompt "SLM" with ⟨res, lg⟩
      rw [hh] at h
      cases res with
      | error e =>
        dsimp only at h
        rcases hsx : slmExcept cfg pv uf prompt (route cfg prompt priority) e lg
          with ⟨res2, lg2⟩
        rw [hsx] at h
        dsimp only at h
        rw [h] at hsx
        obtain ⟨hfb, -, s, hs, hne⟩ :=
          slmExcept_ok cfg pv uf prompt (route cfg prompt priority) e lg out lg2 hsx
        refine ⟨?_, fun _ => ⟨hfb, s, hs, hne⟩⟩
        rw [hfb, hs]
        rfl
      | ok r =>
        dsimp only at h
        by_cases hq : (uf && cfg.fallback_enabled && !(checkResponseQuality r prompt)) = true
        · rw [if_pos hq] at h
          by_cases hga : cfg.gemini_available = true
          · rw [if_pos hga] at h
            cases hg : pv.gemini prompt with
            | ok r2 =>
              rw [hg] at h
              dsimp only at h
              simp only [Except.ok.injEq] at h
              subst h
              exact ⟨rfl, fun _ => ⟨rfl, _, rfl, by decide⟩⟩
            | error g =>
              rw [hg] at h
              dsimp only at h
              rcases hsx : slmExcept cfg pv uf prompt (route cfg prompt priority) g
                  (lg ++ ["gemini"]) with ⟨res2, lg2⟩
              rw [hsx] at h
              dsimp only at h
              rw [h] at hsx
              obtain ⟨hfb, -, s, hs, hne⟩ :=
                slmExcept_ok cfg pv uf prompt (route cfg prompt priority) g
                  (lg ++ ["gemini"]) out lg2 hsx
              refine ⟨?_, fun _ => ⟨hfb, s, hs, hne⟩⟩
              rw [hfb, hs]
              rfl
          · rw [if_neg hga] at h
            rcases hh2 : tryGenerateWithFallback cfg pv pv.llm "llm" prompt "LLM"
              with ⟨res2, lg2⟩
            rw [hh2] at h
            cases res2 with
            | ok r2 =>
              dsimp only at h
              simp only [Except.ok.injEq] at h
              subst h
              exact ⟨rfl, fun _ => ⟨rfl, _, rfl, by decide⟩⟩
            | error e2 =>
              dsimp only at h
              rcases hsx : slmExcept cfg pv uf prompt (route cfg prompt priority) e2
                  (lg ++ lg2) with ⟨res3, lg3⟩
              rw [hsx] at h
              dsimp only at h
              rw [h] at hsx
              obtain ⟨hfb, -, s, hs, hne⟩ :=
                slmExcept_ok cfg pv uf prompt (route cfg prompt priority) e2
                  (lg ++ lg2) out lg3 hsx
              refine ⟨?_, fun _ => ⟨hfb, s, hs, hne⟩⟩
              rw [hfb, hs]
              rfl
        · rw [if_neg hq] at h
          dsimp only at h
          simp only [Except.ok.injEq] at h
          subst h
          refine ⟨rfl, fun hne => ?_⟩
          rcases route_model_type_mem cfg prompt priority with hmt | hmt | hmt
          · exact absurd hmt h1
          · exact absurd hmt h2
          · exact absurd hmt.symm hne

theorem quality_good_hi : checkResponseQuality "a decent quality long answer" "hi" = true := by
  have hr : ("a decent quality long answer" : String).length = 28 := by decide
  have hp : ("hi" : String).length = 2 := by decide
  have hi0 : indicatorCount "a decent quality long answer" = 0 := by decide
  unfold checkResponseQuality
  rw [if_neg (by rw [hr]; norm_num), if_neg (by rw [hr, hp]; norm_num), hi0]
  rfl

theorem process_pvGood_run : (process cfgOrc pvGood "hi" "cost" true).1 =
    .ok ⟨"a decent quality long answer", "slm", route cfgOrc "hi" "cost", false, none⟩ := by
  simp only [process, route_hi_cost]
  rw [if_neg (by decide), if_neg (by decide),
      tryGen_ok cfgOrc pvGood pvGood.slm "slm" "hi" "SLM" "a decent quality long answer" rfl]
  dsimp only
  rw [if_neg (by rw [quality_good_hi]; decide)]

/-- Witness for C2 (amended) at a concrete successful run. -/
theorem process_fallback_report_witness :
    (process cfgOrc pvGood "hi" "cost" true).1 =
      .ok ⟨"a decent quality long answer", "slm", route cfgOrc "hi" "cost", false, none⟩
    ∧ ((Outcome.mk "a decent quality long answer" "slm" (route cfgOrc "hi" "cost")
          false none).fallback_reason.isSome
        = (Outcome.mk "a decent quality long answer" "slm" (route cfgOrc "hi" "cost")
          false none).fallback_used)
    ∧ ((Outcome.mk "a decent quality long answer" "slm" (route cfgOrc "hi" "cost")
          false none).model_used
        ≠ (Outcome.mk "a decent quality long answer" "slm" (route cfgOrc "hi" "cost")
          false none).decision.model_type →
        (Outcome.mk "a decent quality long answer" "slm" (route cfgOrc "hi" "cost")
          false none).fallback_used = true
        ∧ ∃ s, (Outcome.mk "a decent quality long answer" "slm" (route cfgOrc "hi" "cost")
          false none).fallback_reason = some s ∧ s ≠ "") := by
  have h := process_fallback_report cfgOrc pvGood "hi" "cost" true
    ⟨"a decent quality long answer", "slm", route cfgOrc "hi" "cost", false, none⟩
    process_pvGood_run
  exact ⟨process_pvGood_run, h.1, h.2⟩

/-- C2 (counterexample): under `pvSilent` the local tier fails with a
connectivity error and the helper silently obtains the response from
gemini, yet the outcome reports `model_used = "slm"`, `fallback_used =
false` and no `fallback_reason`; the invocation log shows the response was
produced by the gemini tier. -/
theorem process_silent_fallback_cex :
    pvSilent.slm "hi" = .error "Ollama API error: connection error"
    ∧ (process cfgOrc pvSilent "hi" "cost" false).1 =
        .ok ⟨"a long and helpful gemini answer", "slm", route cfgOrc "hi" "cost", false, none⟩
    ∧ (process cfgOrc pvSilent "hi" "cost" false).2 = ["slm", "gemini"]
    ∧ (route cfgOrc "hi" "cost").model_type = "slm" := by
  have hp : process cfgOrc pvSilent "hi" "cost" false =
      (.ok ⟨"a long and helpful gemini answer", "slm", route cfgOrc "hi" "cost", false, none⟩,
       ["slm", "gemini"]) := by
    simp only [process, route_hi_cost]
    rw [if_neg (by decide), if_neg (by decide),
        tryGen_conn cfgOrc pvSilent pvSilent.slm "slm" "hi" "SLM"
          "Ollama API error: connection error" rfl (by decide) rfl]
    simp only [pvSilent]
    rw [if_neg (by decide)]
  refine ⟨rfl, ?_, ?_, by rw [route_hi_cost]⟩
  · rw [hp]
  · rw [hp]

/-- C7 (amended): when the refinement stage of `distill_and_process`
returns a text that is absent or under 10 characters after trimming, the
second stage uses the original prompt and the returned `refined_prompt` is
the original prompt *stripped of surrounding whitespace* (the code
substitutes the original prompt and then strips it). -/
theorem distill_short_refinement (cfg : Config) (pv : Providers)
    (prompt r0 resp : String) (log : List String)
    (hstage1 : tryGenerateWithFallback cfg pv pv.slm "slm" (distillationPrompt prompt) "SLM"
      = (.ok r0, log))
    (hshort : r0 = "" ∨ (pyStrip r0).length < 10)
    (hgem : cfg.gemini_available = true)
    (hstage2 : pv.gemini (pyStrip prompt) = .ok resp) :
    (distillAndProcess cfg pv prompt).1 =
      .ok ⟨resp, "gemini", pyStrip prompt, prompt, true, none⟩ := by
  simp only [distillAndProcess]
  rw [hstage1]
  dsimp only
  rw [if_pos hshort, if_pos hgem, hstage2]

/-- Witness for C7 (amended): the refinement stage returns the empty string
and the returned `refined_prompt` is the stripped original prompt. -/
theorem distill_short_refinement_witness :
    tryGenerateWithFallback cfgOrc pvRefine pvRefine.slm "slm"
      (distillationPrompt "  nice prompt here  ") "SLM" = (.ok "", ["slm"])
    ∧ (("" : String) = "" ∨ (pyStrip "").length < 10)
    ∧ cfgOrc.gemini_available = true
    ∧ pvRefine.gemini (pyStrip "  nice prompt here  ") = .ok "forty two, obviously, always"
    ∧ (distillAndProcess cfgOrc pvRefine "  nice prompt here  ").1 =
        .ok ⟨"forty two, obviously, always", "gemini", pyStrip "  nice prompt here  ",
             "  nice prompt here  ", true, none⟩ :=
  ⟨tryGen_ok cfgOrc pvRefine pvRefine.slm "slm" (distillationPrompt "  nice prompt here  ")
      "SLM" "" rfl,
   Or.inl rfl, rfl, rfl,
   distill_short_refinement cfgOrc pvRefine "  nice prompt here  " ""
     "forty two, obviously, always" ["slm"]
     (tryGen_ok cfgOrc pvRefine pvRefine.slm "slm" (distillationPrompt "  nice prompt here  ")
       "SLM" "" rfl)
     (Or.inl rfl) rfl rfl⟩

/-- C7 (counterexample): with a prompt carrying surrounding whitespace and
an empty refinement, the returned `refined_prompt` is the stripped prompt,
not the original prompt verbatim. -/
theorem distill_not_verbatim_cex :
    pvRefine.slm (distillationPrompt "  nice prompt here  ") = .ok ""
    ∧ (distillAndProcess cfgOrc pvRefine "  nice prompt here  ").1 =
        .ok ⟨"forty two, obviously, always", "gemini", "nice prompt here",
             "  nice prompt here  ", true, none⟩
    ∧ ("nice prompt here" : String) ≠ "  nice prompt here  " := by
  refine ⟨rfl, ?_, by decide⟩
  simp only [distillAndProcess]
  rw [tryGen_ok cfgOrc pvRefine pvRefine.slm "slm" (distillationPrompt "  nice prompt here  ")
      "SLM" "" rfl]
  dsimp only
  rw [if_pos (Or.inl rfl), if_pos (show cfgOrc.gemini_available = true from rfl),
      show pvRefine.gemini (pyStrip "  nice prompt here  ")
        = .ok "forty two, obviously, always" from rfl]
  rfl

end Slmllm
